import Mathlib

/-!
Verification of the rename_tool repository (src/main.rs), a two-command CLI:
"export" lists the immediate subdirectories of a target directory into a
single-column CSV, and "import" reads a two-column CSV (old_name, new_name)
and renames directories row by row, skipping invalid rows.

The embedding models the immediate contents of the target directory as a list
of named entries, the CSV reader's record stream as a list of parse results,
and the fallible fs::rename call through a per-row error oracle.
-/

namespace RenameTool

/-- One entry of the target directory: its name and whether it is a directory
(main.rs models files and directories uniformly through Path queries). -/
structure FSEntry where
  name : String
  isDir : Bool
deriving DecidableEq, Repr

/-- The immediate contents of the target directory. -/
abbrev FS := List FSEntry

/-- Models new_path.exists() for the path directory/n: some entry named n
exists, file or directory. -/
def FS.pathExists (fs : FS) (n : String) : Bool :=
  fs.any (fun e => e.name == n)

/-- Models old_path.is_dir() for the path directory/n: an entry named n
exists and is a directory. -/
def FS.isDirAt (fs : FS) (n : String) : Bool :=
  fs.any (fun e => e.name == n && e.isDir)

/-- Models fs::rename(directory/o, directory/n): the entry named o keeps its
kind and takes the name n. -/
def FS.rename (fs : FS) (o n : String) : FS :=
  fs.map (fun e => if e.name == o then { e with name := n } else e)

/-- Models str::trim: strip leading and trailing whitespace characters
(whitespace modelled by Char.isWhitespace; defined structurally on the
character list so the kernel can evaluate it). -/
def trim (s : String) : String :=
  ⟨((s.data.dropWhile Char.isWhitespace).reverse.dropWhile Char.isWhitespace).reverse⟩

/-- Models str::is_empty. -/
def strIsEmpty (s : String) : Bool :=
  s.data.isEmpty

/-- The report the import loop prints for one CSV data row; error outcomes
carry the 1-indexed CSV line number used in the message (index + 2). -/
inductive RowOutcome where
  | parseError (line : Nat)
  | emptyField (line : Nat)
  | sourceMissing (line : Nat)
  | targetExists (line : Nat)
  | renameFailed (line : Nat)
  | renamed (oldName newName : String)
deriving DecidableEq, Repr

/-- One item of reader.records(): Except.error is a row the csv reader failed
to parse, Except.ok carries the row's fields. -/
abbrev RawRow := Except Unit (List String)

/-- The body of the row loop in main.rs (lines 168-217) for one row at
0-based index idx: validate the row against the current directory contents
and either skip it (reporting why) or perform the rename. renameErr tells
whether the fs::rename call itself would fail for this row. -/
def processRow (fs : FS) (idx : Nat) (renameErr : Bool) (row : RawRow) :
    RowOutcome × FS :=
  match row with
  | .error _ => (.parseError (idx + 2), fs)
  | .ok record =>
    let old_name := trim ((record.get? 0).getD "")
    let new_name := trim ((record.get? 1).getD "")
    if strIsEmpty old_name || strIsEmpty new_name then
      (.emptyField (idx + 2), fs)
    else if ¬ fs.isDirAt old_name then
      (.sourceMissing (idx + 2), fs)
    else if fs.pathExists new_name then
      (.targetExists (idx + 2), fs)
    else if renameErr then
      (.renameFailed (idx + 2), fs)
    else
      (.renamed old_name new_name, fs.rename old_name new_name)

/-- The row loop: rows are applied strictly sequentially against the evolving
directory contents, every row producing one report. -/
def importRows (renameErr : Nat → Bool) (fs : FS) (idx : Nat) :
    List RawRow → List RowOutcome × FS
  | [] => ([], fs)
  | row :: rest =>
    let step := processRow fs idx (renameErr idx) row
    let tail := importRows renameErr step.2 (idx + 1) rest
    (step.1 :: tail.1, tail.2)

/-- The header validation of main.rs line 160: column 0 must be exactly
"old_name" and column 1 exactly "new_name". -/
def checkHeaders (headers : List String) : Bool :=
  headers.get? 0 == some "old_name" && headers.get? 1 == some "new_name"

/-- A parsed CSV file as the csv reader presents it: the header record and
the stream of data-row parse results. -/
structure CsvFile where
  headers : List String
  rows : List RawRow
deriving Repr

/-- Environment facts the importer checks before the row loop, in source
order: resolved_directory.is_dir(), resolved_csv.is_file(), and whether
opening the reader and reading the headers succeeded. -/
structure ImportEnv where
  dirIsDir : Bool
  csvIsFile : Bool
  csvOpenOk : Bool
deriving DecidableEq, Repr

/-- Result of one import invocation: the process exit status, the per-row
reports (empty when a fatal precondition aborted before the loop), and the
directory contents afterwards. -/
structure ImportResult where
  exitCode : Nat
  outcomes : List RowOutcome
  fs : FS
deriving DecidableEq, Repr

/-- The import command (main.rs lines 126-218): fatal precondition checks in
source order, then the row loop; the loop itself never aborts and the
process then exits with status 0. -/
def importCmd (env : ImportEnv) (renameErr : Nat → Bool) (fs : FS)
    (csv : CsvFile) : ImportResult :=
  if ¬ env.dirIsDir then ⟨1, [], fs⟩
  else if ¬ env.csvIsFile then ⟨1, [], fs⟩
  else if ¬ env.csvOpenOk then ⟨1, [], fs⟩
  else if ¬ checkHeaders csv.headers then ⟨1, [], fs⟩
  else
    let run := importRows renameErr fs 0 csv.rows
    ⟨0, run.1, run.2⟩

/-- Result of one export invocation: the process exit status, whether the
output CSV file was created (csv::Writer::from_path reached), and the CSV
records written to it. -/
structure ExportResult where
  exitCode : Nat
  created : Bool
  records : List (List String)
deriving DecidableEq, Repr

/-- The export command (main.rs lines 62-124). resolvedIsDir is
resolved_path.is_dir(); readDir is the fs::read_dir result, none when
reading the directory failed, and inside it none stands for an entry the
iterator failed on (skipped by .flatten()). The directory checks happen
before the output file is created; on success the header record old_name is
written, then one record per directory entry. -/
def exportCmd (resolvedIsDir : Bool) (readDir : Option (List (Option FSEntry)))
    (writerOk : Bool) : ExportResult :=
  if ¬ resolvedIsDir then ⟨1, false, []⟩
  else
    match readDir with
    | none => ⟨1, false, []⟩
    | some entries =>
      if ¬ writerOk then ⟨1, false, []⟩
      else
        ⟨0, true,
          ["old_name"] ::
            (((entries.filterMap id).filter (fun e => e.isDir)).map
              (fun e => [e.name]))⟩

/-- Reading a CSV file back: the csv reader takes the first record as the
header row and the remaining records as data rows. -/
def csvFileOfRecords : List (List String) → CsvFile
  | [] => ⟨[], []⟩
  | h :: rest => ⟨h, rest.map .ok⟩

/-- Usage line for the export command (main.rs line 5). -/
def EXPORT_USAGE : String := "Usage: rename_tool export <directory_path> [output_csv]"

/-- Usage line for the import command (main.rs line 6). -/
def IMPORT_USAGE : String := "Usage: rename_tool import <directory_path> <input_csv>"

/-- A successfully parsed command line. -/
inductive Command where
  | exportCommand (dir : String) (outCsv : String)
  | importCommand (dir : String) (inCsv : String)
deriving DecidableEq, Repr

/-- The dispatcher in main (main.rs lines 8-60) on the argument list after
the program name: Except.error carries the usage lines printed to stderr
before exiting with status 1. -/
def parseArgs (args : List String) : Except (List String) Command :=
  match args with
  | [] => .error [EXPORT_USAGE, IMPORT_USAGE]
  | command :: rest =>
    if command = "export" then
      match rest with
      | [] => .error [EXPORT_USAGE]
      | [dir] => .ok (.exportCommand dir "folders.csv")
      | [dir, out] => .ok (.exportCommand dir out)
      | _ => .error [EXPORT_USAGE]
    else if command = "import" then
      match rest with
      | [dir, inCsv] => .ok (.importCommand dir inCsv)
      | _ => .error [IMPORT_USAGE]
    else
      .error [EXPORT_USAGE, IMPORT_USAGE]

/-! Helper lemmas shared by several claim theorems. -/

/-- The row loop produces exactly one report per row: no row is dropped and
none aborts the loop. -/
theorem importRows_length (renameErr : Nat → Bool) (fs : FS) (idx : Nat)
    (rows : List RawRow) :
    (importRows renameErr fs idx rows).1.length = rows.length := by
  induction rows generalizing fs idx with
  | nil => rfl
  | cons row rest ih => simp [importRows, ih]

/-! The claim theorems. -/

/-- Claim C1: when the directory and CSV preconditions hold and the header
row is valid, no individual row failure aborts the loop: every data row
yields exactly one report and the process exits with status 0, however many
rows were skipped or failed (the rename-error oracle is arbitrary). -/
theorem import_row_failures_do_not_abort (renameErr : Nat → Bool) (fs : FS)
    (csv : CsvFile) (h : checkHeaders csv.headers = true) :
    (importCmd ⟨true, true, true⟩ renameErr fs csv).exitCode = 0 ∧
      (importCmd ⟨true, true, true⟩ renameErr fs csv).outcomes.length =
        csv.rows.length := by
  simp [importCmd, h, importRows_length]

/-- Witness for C1 at a concrete run containing a malformed row and a row
whose rename call fails. -/
theorem import_row_failures_do_not_abort_witness :
    (importCmd ⟨true, true, true⟩ (fun _ => true) [⟨"a", true⟩]
        ⟨["old_name", "new_name"], [.error (), .ok ["a", "b"]]⟩).exitCode = 0 ∧
      (importCmd ⟨true, true, true⟩ (fun _ => true) [⟨"a", true⟩]
          ⟨["old_name", "new_name"], [.error (), .ok ["a", "b"]]⟩).outcomes.length =
        ([Except.error (), Except.ok ["a", "b"]] : List RawRow).length :=
  import_row_failures_do_not_abort (fun _ => true) [⟨"a", true⟩]
    ⟨["old_name", "new_name"], [.error (), .ok ["a", "b"]]⟩ (by decide)

/-- Claim C5: whenever the header row fails the validation, the importer
exits with status 1, processes no data row, and leaves the directory
contents unchanged, whatever the other environment checks say. -/
theorem invalid_header_aborts_import (env : ImportEnv) (renameErr : Nat → Bool)
    (fs : FS) (csv : CsvFile) (h : checkHeaders csv.headers = false) :
    importCmd env renameErr fs csv = ⟨1, [], fs⟩ := by
  obtain ⟨d, f, o⟩ := env
  cases d <;> cases f <;> cases o <;> simp [importCmd, h]

/-- Witness for C5 at the concrete header foo,bar. -/
theorem invalid_header_aborts_import_witness :
    importCmd ⟨true, true, true⟩ (fun _ => false) [⟨"a", true⟩]
        ⟨["foo", "bar"], [.ok ["a", "b"]]⟩ =
      ⟨1, [], [⟨"a", true⟩]⟩ :=
  invalid_header_aborts_import ⟨true, true, true⟩ (fun _ => false) [⟨"a", true⟩]
    ⟨["foo", "bar"], [.ok ["a", "b"]]⟩ (by decide)

/-- Claim C6: rows apply strictly sequentially against the evolving
directory contents. With directories a and existing present, rows
(a,b), (missing,c), (a,existing) give: row 1 renames a to b, row 2 is
skipped (source missing), and row 3 is skipped because a no longer exists
after row 1 renamed it away. -/
theorem rows_apply_sequentially :
    importCmd ⟨true, true, true⟩ (fun _ => false)
        [⟨"a", true⟩, ⟨"existing", true⟩]
        ⟨["old_name", "new_name"],
          [.ok ["a", "b"], .ok ["missing", "c"], .ok ["a", "existing"]]⟩ =
      ⟨0, [.renamed "a" "b", .sourceMissing 3, .sourceMissing 4],
        [⟨"b", true⟩, ⟨"existing", true⟩]⟩ := by
  decide

/-- Claim C7: names come from columns 0 and 1 (empty when the column is
missing) and are trimmed; a row where either trimmed name is empty —
including a whitespace-only field — is reported as an empty-field skip for
line idx + 2 and leaves the directory contents unchanged. -/
theorem empty_after_trim_is_skipped (fs : FS) (idx : Nat) (renameErr : Bool)
    (record : List String)
    (h : strIsEmpty (trim ((record.get? 0).getD "")) = true ∨
        strIsEmpty (trim ((record.get? 1).getD "")) = true) :
    processRow fs idx renameErr (.ok record) = (.emptyField (idx + 2), fs) := by
  rcases h with h | h <;> simp only [List.get?_eq_getElem?] at h <;>
    simp [processRow, h]

/-- Witness for C7 at a whitespace-only old_name field. -/
theorem empty_after_trim_is_skipped_witness :
    processRow [⟨"a", true⟩] 0 false (.ok ["  ", "x"]) =
      (.emptyField 2, [⟨"a", true⟩]) :=
  empty_after_trim_is_skipped [⟨"a", true⟩] 0 false ["  ", "x"]
    (Or.inl (by decide))

/-- Claim C8: when the resolved input path is not an existing directory, the
exporter exits with status 1 before the output CSV is created or truncated:
the output file is not created and no record is written. -/
theorem export_invalid_dir_writes_nothing
    (readDir : Option (List (Option FSEntry))) (writerOk : Bool) :
    exportCmd false readDir writerOk = ⟨1, false, []⟩ := by
  rfl

/-- Claim C2 counterexample: a row whose computed target exists but whose
source directory is missing is reported as source-missing, not as
target-exists, so not every existing-target row gets the target-exists
report. -/
theorem existing_target_not_always_reported_so :
    FS.pathExists [⟨"b", true⟩] "b" = true ∧
      processRow [⟨"b", true⟩] 0 false (.ok ["missing", "b"]) =
        (.sourceMissing 2, [⟨"b", true⟩]) ∧
      (processRow [⟨"b", true⟩] 0 false (.ok ["missing", "b"])).1 ≠
        .targetExists 2 := by
  decide

/-- Claim C2 (amended): a row that passes the earlier checks (both trimmed
names non-empty and the source an existing directory) and whose target path
exists — file or directory — is reported target-exists and skipped with the
directory contents unchanged; and in all cases a rename is only ever
performed when the target did not exist, so nothing is overwritten. -/
theorem existing_target_skipped_never_overwritten (fs : FS) (idx : Nat)
    (renameErr : Bool) :
    (∀ record : List String,
        strIsEmpty (trim ((record.get? 0).getD "")) = false →
        strIsEmpty (trim ((record.get? 1).getD "")) = false →
        fs.isDirAt (trim ((record.get? 0).getD "")) = true →
        fs.pathExists (trim ((record.get? 1).getD "")) = true →
        processRow fs idx renameErr (.ok record) =
          (.targetExists (idx + 2), fs)) ∧
    (∀ (row : RawRow) (o n : String),
        (processRow fs idx renameErr row).1 = .renamed o n →
        fs.pathExists n = false) := by
  constructor
  · intro record h1 h2 h3 h4
    simp only [List.get?_eq_getElem?] at h1 h2 h3 h4
    simp [processRow, h1, h2, h3, h4]
  · intro row o n h
    match row with
    | .error u => simp [processRow] at h
    | .ok record =>
      simp only [processRow] at h
      split at h
      · simp at h
      · split at h
        · simp at h
        · split at h
          · simp at h
          · split at h
            · simp at h
            · rename_i hTarget _
              simp only [Prod.fst] at h
              cases h
              simpa using hTarget

/-- Witness for the amended C2 at a concrete row with an existing target. -/
theorem existing_target_skipped_never_overwritten_witness :
    processRow [⟨"a", true⟩, ⟨"b", false⟩] 0 false (.ok ["a", "b"]) =
      (.targetExists 2, [⟨"a", true⟩, ⟨"b", false⟩]) :=
  (existing_target_skipped_never_overwritten [⟨"a", true⟩, ⟨"b", false⟩] 0
      false).1 ["a", "b"] (by decide) (by decide) (by decide) (by decide)

/-- Claim C3 counterexample: exporting a directory with one subdirectory a
and feeding the unmodified CSV back to the importer does not skip each row
with a target-exists report: the single-column header old_name fails the
header validation, so the run exits with status 1 and processes no row at
all. -/
theorem roundtrip_rows_never_reached :
    importCmd ⟨true, true, true⟩ (fun _ => false) [⟨"a", true⟩]
        (csvFileOfRecords
          (exportCmd true (some [some ⟨"a", true⟩]) true).records) =
      ⟨1, [], [⟨"a", true⟩]⟩ ∧
    (importCmd ⟨true, true, true⟩ (fun _ => false) [⟨"a", true⟩]
        (csvFileOfRecords
          (exportCmd true (some [some ⟨"a", true⟩]) true).records)).outcomes ≠
      [.targetExists 2] := by
  decide

/-- Claim C3 (amended): for every directory, re-importing the unmodified
exported CSV performs no rename, but not through per-row target-exists
skips: the exported header is the single column old_name, which fails the
importer's header validation, so the run exits with status 1 with no row
processed and the directory contents after equal those before. -/
theorem roundtrip_rejected_at_header (entries : List (Option FSEntry))
    (renameErr : Nat → Bool) (fs : FS) :
    importCmd ⟨true, true, true⟩ renameErr fs
        (csvFileOfRecords (exportCmd true (some entries) true).records) =
      ⟨1, [], fs⟩ := by
  simp [importCmd, exportCmd, csvFileOfRecords, checkHeaders]

/-- Claim C4: on a valid directory, the exporter succeeds, its first record
is the single header field old_name, and the remaining records are exactly
one single-field record per directory entry, in iteration order; a name
appears among the data records iff some listed entry with that name is a
directory, so files never appear. -/
theorem export_lists_exactly_the_subdirectories
    (entries : List (Option FSEntry)) :
    (exportCmd true (some entries) true).exitCode = 0 ∧
    (exportCmd true (some entries) true).records.head? = some ["old_name"] ∧
    (exportCmd true (some entries) true).records.tail =
      ((entries.filterMap id).filter (fun e => e.isDir)).map
        (fun e => [e.name]) ∧
    (∀ n : String,
        [n] ∈ (exportCmd true (some entries) true).records.tail ↔
          ∃ e : FSEntry, some e ∈ entries ∧ e.isDir = true ∧ e.name = n) := by
  have hx : exportCmd true (some entries) true =
      ⟨0, true,
        ["old_name"] ::
          ((entries.filterMap id).filter (fun e => e.isDir)).map
            (fun e => [e.name])⟩ := rfl
  refine ⟨by rw [hx], by rw [hx]; rfl, by rw [hx]; rfl, ?_⟩
  intro n
  rw [hx]
  simp only [List.tail_cons, List.mem_map, List.mem_filter, List.mem_filterMap,
    id_eq]
  constructor
  · rintro ⟨e, ⟨⟨a, ha, rfl⟩, hd⟩, he⟩
    exact ⟨e, ha, hd, by simpa using he⟩
  · rintro ⟨e, he, hd, rfl⟩
    exact ⟨e, ⟨⟨some e, he, rfl⟩, hd⟩, rfl⟩

/-- Claim C9 counterexample: the export command invoked with a wrong
argument count (no directory) prints only the export usage line, not both
usage lines. -/
theorem wrong_arg_count_prints_one_usage_line :
    parseArgs ["export"] = .error [EXPORT_USAGE] ∧
      parseArgs ["export"] ≠ .error [EXPORT_USAGE, IMPORT_USAGE] := by
  refine ⟨rfl, ?_⟩
  have h : parseArgs ["export"] = .error [EXPORT_USAGE] := rfl
  rw [h]
  simp

/-- Claim C9 (amended): a missing or unrecognized first argument prints both
usage lines and exits with status 1; a wrong argument count for the export
command prints only the export usage line, and a wrong argument count for
the other command prints only its own usage line — each usage error exits
with status 1 and performs no filesystem operation. -/
theorem usage_errors_exit_one :
    parseArgs [] = .error [EXPORT_USAGE, IMPORT_USAGE] ∧
    (∀ (cmd : String) (rest : List String), cmd ≠ "export" → cmd ≠ "import" →
        parseArgs (cmd :: rest) = .error [EXPORT_USAGE, IMPORT_USAGE]) ∧
    (∀ rest : List String, rest.length ≠ 1 → rest.length ≠ 2 →
        parseArgs ("export" :: rest) = .error [EXPORT_USAGE]) ∧
    (∀ rest : List String, rest.length ≠ 2 →
        parseArgs ("import" :: rest) = .error [IMPORT_USAGE]) := by
  refine ⟨rfl, ?_, ?_, ?_⟩
  · intro cmd rest h1 h2
    simp [parseArgs, h1, h2]
  · intro rest h1 h2
    match rest with
    | [] => rfl
    | [d] => exact absurd rfl h1
    | [d, o] => exact absurd rfl h2
    | a :: b :: c :: r => rfl
  · intro rest h2
    match rest with
    | [] => rfl
    | [d] => rfl
    | [d, c] => exact absurd rfl h2
    | a :: b :: c :: r => rfl

/-- Witness for the amended C9 at the unrecognized first argument foo. -/
theorem usage_errors_exit_one_witness :
    parseArgs ["foo"] = .error [EXPORT_USAGE, IMPORT_USAGE] :=
  usage_errors_exit_one.2.1 "foo" [] (by decide) (by decide)

/-- Claim C10: one row never deletes an entry: it either leaves the
directory contents unchanged, or it is a rename whose source is an existing
directory and whose target did not exist, in which case every entry not
named as the source survives unchanged; either way the number of entries is
preserved. -/
theorem import_never_deletes_entries (fs : FS) (idx : Nat) (renameErr : Bool)
    (row : RawRow) :
    ((processRow fs idx renameErr row).2 = fs ∨
      ∃ o n : String,
        (processRow fs idx renameErr row).1 = .renamed o n ∧
        fs.isDirAt o = true ∧ fs.pathExists n = false ∧
        (processRow fs idx renameErr row).2 = fs.rename o n ∧
        ∀ e ∈ fs, e.name ≠ o → e ∈ (processRow fs idx renameErr row).2) ∧
    ((processRow fs idx renameErr row).2).length = fs.length := by
  match row with
  | .error u => exact ⟨Or.inl rfl, rfl⟩
  | .ok record =>
    by_cases h1 : strIsEmpty (trim (record[0]?.getD "")) = true ∨
        strIsEmpty (trim (record[1]?.getD "")) = true
    · simp [processRow, h1]
    · by_cases h2 : fs.isDirAt (trim (record[0]?.getD "")) = true
      · by_cases h3 : fs.pathExists (trim (record[1]?.getD "")) = true
        · simp [processRow, h1, h2, h3]
        · by_cases h4 : renameErr = true
          · simp [processRow, h1, h2, h3, h4]
          · have hstep : processRow fs idx renameErr (.ok record) =
                (.renamed (trim (record[0]?.getD ""))
                    (trim (record[1]?.getD "")),
                  fs.rename (trim (record[0]?.getD ""))
                    (trim (record[1]?.getD ""))) := by
              simp [processRow, h1, h2, h3, h4]
            rw [hstep]
            refine ⟨Or.inr ⟨trim (record[0]?.getD ""),
              trim (record[1]?.getD ""), rfl, h2,
              (Bool.not_eq_true _) ▸ h3, rfl, ?_⟩, ?_⟩
            · intro e he hne
              refine List.mem_map.mpr ⟨e, he, ?_⟩
              simp [hne]
            · simp [FS.rename]
      · simp [processRow, h1, h2]

end RenameTool
